import Mathlib

/-!
Shallow embedding of `src/widget/settings/item.rs` from libcosmic.

The file under verification assembles a "settings item" row: a title
(optionally with a description and an icon) paired with a trailing control
widget, laid out with theme-derived spacing.  Widget trees are modelled as
inductive data; the builder chains of the host toolkit become record
updates; the global theme mutex becomes explicit state passing.
-/

namespace Cosmic

/-- Text wrapping strategy, mirroring `iced_core::text::Wrapping`. -/
inductive Wrapping where
  | None
  | Word
  | Glyph
  | WordOrGlyph
deriving DecidableEq, Repr

/-- Widget width or height, mirroring `iced::Length`. -/
inductive Length where
  | Fill
  | FillPortion (factor : Nat)
  | Shrink
  | Fixed (amount : Nat)
deriving DecidableEq, Repr

/-- Cross axis alignment, mirroring `iced::Alignment`. -/
inductive Alignment where
  | Start
  | Center
  | End
deriving DecidableEq, Repr

/-- Content distribution, mirroring `taffy::AlignContent`. -/
inductive AlignContent where
  | Start
  | End
  | FlexStart
  | FlexEnd
  | Center
  | Stretch
  | SpaceBetween
  | SpaceEvenly
  | SpaceAround
deriving DecidableEq, Repr

/-- Padding of a container, mirroring `iced::Padding`. -/
structure Padding where
  top : Nat
  right : Nat
  bottom : Nat
  left : Nat
deriving DecidableEq, Repr

/-- Conversion of a `[vertical, horizontal]` pair into a `Padding`,
mirroring the `From<[u16; 2]>` conversion of the host toolkit used by
`.padding([0, space_s])`. -/
def Padding.fromPair (vertical horizontal : Nat) : Padding :=
  { top := vertical, right := horizontal, bottom := vertical, left := horizontal }

/-- Configuration of a text node.  A field holding `none` records that the
settings-item code left that property at the toolkit default. -/
structure Text where
  content : String
  wrapping : Option Wrapping
  width : Option Length
  size : Option Nat
deriving DecidableEq, Repr

/-- Modelled from the spec: the toolkit text constructor `text(content)`
(defined in the widget library outside this file); it records the content
and leaves wrapping, width and size unset. -/
def text (content : String) : Text :=
  { content := content, wrapping := none, width := none, size := none }

/-- Configuration of a spacer node. -/
structure Space where
  width : Length
deriving DecidableEq, Repr

/-- Modelled from the spec: the toolkit `horizontal_space()` constructor, a
horizontally filling spacer. -/
def horizontal_space : Space :=
  { width := Length.Fill }

/-- Configuration of a toggle switch, mirroring the toolkit toggler widget:
a checked state and an optional state-change callback. -/
structure Toggler (α : Type) where
  is_checked : Bool
  on_toggle : Option (Bool → α)

namespace widget

/-- Modelled from the spec: the toolkit toggle-switch constructor
`widget::toggler(is_checked)`, with no callback bound yet. -/
def toggler {α : Type} (is_checked : Bool) : Toggler α :=
  { is_checked := is_checked, on_toggle := none }

end widget

/-- A widget-tree element, covering exactly the node kinds the settings-item
code constructs or receives. -/
inductive Element (α : Type) where
  | text (t : Text)
  | space (s : Space)
  | column (spacing : Nat) (width : Option Length) (children : List (Element α))
  | container (child : Element α)
  | toggler (t : Toggler α)

/-- A horizontal row container, mirroring the toolkit `Row` configuration
touched by this file. -/
structure Row (α : Type) where
  children : List (Element α)
  spacing : Nat
  align_y : Alignment
  padding : Padding

namespace row

/-- Modelled from the spec: the toolkit `row::with_children` constructor with
its default spacing, alignment and padding. -/
def with_children {α : Type} (children : List (Element α)) : Row α :=
  { children := children, spacing := 0, align_y := Alignment.Start,
    padding := { top := 0, right := 0, bottom := 0, left := 0 } }

end row

/-- A wrapping flex-row container, mirroring the toolkit `FlexRow`
configuration touched by this file. -/
structure FlexRow (α : Type) where
  children : List (Element α)
  padding : Padding
  spacing : Nat
  min_item_width : Nat
  justify_items : Alignment
  justify_content : AlignContent
  width : Length

/-- Modelled from the spec: the toolkit `flex_row` constructor.  Every field
except the children is overwritten by `flex_item_row`, so the defaults used
here are irrelevant to the claims. -/
def flex_row {α : Type} (children : List (Element α)) : FlexRow α :=
  { children := children,
    padding := { top := 0, right := 0, bottom := 0, left := 0 },
    spacing := 0,
    min_item_width := 0,
    justify_items := Alignment.Start,
    justify_content := AlignContent.FlexStart,
    width := Length.Shrink }

/-- Theme spacing constants, mirroring `cosmic_theme::Spacing` (the source
destructures only `space_s` and `space_xs`). -/
structure Spacing where
  space_none : Nat
  space_xxxs : Nat
  space_xxs : Nat
  space_xs : Nat
  space_s : Nat
  space_m : Nat
  space_l : Nat
deriving DecidableEq, Repr

/-- The cosmic part of the theme, as returned by `.cosmic()`. -/
structure CosmicTheme where
  spacing : Spacing
deriving DecidableEq, Repr

/-- The global theme value stored behind `theme::THEME`. -/
structure Theme where
  cosmicTheme : CosmicTheme
deriving DecidableEq, Repr

/-- Accessor mirroring `Theme::cosmic()`. -/
def Theme.cosmic (t : Theme) : CosmicTheme := t.cosmicTheme

variable {α : Type}

/-- `item_row` from `item.rs`: reads `space_s` and `space_xs` from the theme
and wraps the children in a row with `space_xs` spacing, vertical centering
and `[0, space_s]` padding.  The theme obtained from the global lock is
passed explicitly. -/
def item_row (theme : Theme) (children : List (Element α)) : Row α :=
  let space_s := theme.cosmic.spacing.space_s
  let space_xs := theme.cosmic.spacing.space_xs
  { row.with_children children with
      spacing := space_xs,
      align_y := Alignment.Center,
      padding := Padding.fromPair 0 space_s }

/-- `item` from `item.rs`: a row of the word-wrapped title, a filling
horizontal spacer, and the control widget. -/
def item (theme : Theme) (title : String) (widget : Element α) : Row α :=
  item_row theme
    [ Element.text { text title with wrapping := some Wrapping.Word },
      Element.space { horizontal_space with width := Length.Fill },
      widget ]

/-- `flex_item_row` from `item.rs`: wraps the children in a flex-row with
`[0, space_s]` padding, `space_xs` spacing, a 200 unit minimum item width,
centered item justification, space-between content justification and `Fill`
width.  The `200.0` floating-point literal of the source is modelled as the
natural number 200. -/
def flex_item_row (theme : Theme) (children : List (Element α)) : FlexRow α :=
  let space_s := theme.cosmic.spacing.space_s
  let space_xs := theme.cosmic.spacing.space_xs
  { flex_row children with
      padding := Padding.fromPair 0 space_s,
      spacing := space_xs,
      min_item_width := 200,
      justify_items := Alignment.Center,
      justify_content := AlignContent.SpaceBetween,
      width := Length.Fill }

/-- `flex_item` from `item.rs`: a flex-row of the word-wrapped,
width-filling title and the control wrapped in a generic container. -/
def flex_item (theme : Theme) (title : String) (widget : Element α) : FlexRow α :=
  flex_item_row theme
    [ Element.text { text title with wrapping := some Wrapping.Word, width := some Length.Fill },
      Element.container widget ]

/-- The `Item` builder from `item.rs`: a title, an optional description and
an optional icon. -/
structure Item (α : Type) where
  title : String
  description : Option String
  icon : Option (Element α)

/-- `builder(title)` from `item.rs`: an `Item` with the given title and no
description or icon. -/
def builder (title : String) : Item α :=
  { title := title, description := none, icon := none }

/-- `Item::control_` from `item.rs`: the private assembly of the children
list pushed into the row: the icon when present, then either the
title/description column or the width-filling title text, then the control
widget. -/
def Item.control_ (self : Item α) (widget : Element α) : List (Element α) :=
  let contents : List (Element α) := []
  let contents :=
    match self.icon with
    | some icon => contents.concat icon
    | none => contents
  let contents :=
    match self.description with
    | some description =>
        let col : Element α :=
          Element.column 2 (some Length.Fill)
            [ Element.text { text self.title with wrapping := some Wrapping.Word },
              Element.text { text description with wrapping := some Wrapping.Word, size := some 10 } ]
        contents.concat col
    | none =>
        contents.concat (Element.text { text self.title with width := some Length.Fill })
  contents.concat widget

/-- `Item::control` from `item.rs`. -/
def Item.control (self : Item α) (theme : Theme) (widget : Element α) : Row α :=
  item_row theme (self.control_ widget)

/-- `Item::flex_control` from `item.rs`. -/
def Item.flex_control (self : Item α) (theme : Theme) (widget : Element α) : FlexRow α :=
  flex_item_row theme (self.control_ widget)

/-- `Item::toggler` from `item.rs`: `control` applied to the toolkit toggle
switch with the callback bound via `.on_toggle(message)`. -/
def Item.toggler (self : Item α) (theme : Theme) (is_checked : Bool)
    (message : Bool → α) : Row α :=
  self.control theme
    (Element.toggler { (widget.toggler is_checked : Toggler α) with on_toggle := some message })

/-- The process-wide theme mutex `theme::THEME`: a value that may be in the
poisoned state. -/
structure ThemeLock where
  poisoned : Bool
  value : Theme

/-- `THEME.lock().unwrap()`: yields the theme unless the lock is poisoned,
in which case the call aborts (modelled as `none`). -/
def ThemeLock.lockUnwrap (l : ThemeLock) : Option Theme :=
  if l.poisoned then none else some l.value

/-- Runs a pure construction against the locked theme, returning the result
(or the abort) together with the lock state afterwards. -/
def withTheme {β : Type} (st : ThemeLock) (f : Theme → β) : Option β × ThemeLock :=
  match st.lockUnwrap with
  | none => (none, st)
  | some theme => (some (f theme), st)

/-- State-passing form of `item_row` (the source acquires the global theme
lock inside). -/
def item_rowState (st : ThemeLock) (children : List (Element α)) :
    Option (Row α) × ThemeLock :=
  withTheme st (fun theme => item_row theme children)

/-- State-passing form of `item`. -/
def itemState (st : ThemeLock) (title : String) (widget : Element α) :
    Option (Row α) × ThemeLock :=
  withTheme st (fun theme => item theme title widget)

/-- State-passing form of `flex_item_row`. -/
def flex_item_rowState (st : ThemeLock) (children : List (Element α)) :
    Option (FlexRow α) × ThemeLock :=
  withTheme st (fun theme => flex_item_row theme children)

/-- State-passing form of `flex_item`. -/
def flex_itemState (st : ThemeLock) (title : String) (widget : Element α) :
    Option (FlexRow α) × ThemeLock :=
  withTheme st (fun theme => flex_item theme title widget)

/-- State-passing form of `Item::control`. -/
def controlState (st : ThemeLock) (self : Item α) (widget : Element α) :
    Option (Row α) × ThemeLock :=
  withTheme st (fun theme => self.control theme widget)

/-- State-passing form of `Item::flex_control`. -/
def flex_controlState (st : ThemeLock) (self : Item α) (widget : Element α) :
    Option (FlexRow α) × ThemeLock :=
  withTheme st (fun theme => self.flex_control theme widget)

/-- State-passing form of `Item::toggler`. -/
def togglerState (st : ThemeLock) (self : Item α) (is_checked : Bool)
    (message : Bool → α) : Option (Row α) × ThemeLock :=
  withTheme st (fun theme => self.toggler theme is_checked message)

/-- The optional-icon prefix of the children built by `Item::control_`. -/
def Item.iconList (self : Item α) : List (Element α) :=
  match self.icon with
  | some icon => [icon]
  | none => []

/-- The single title-or-title+description block built by `Item::control_`. -/
def Item.titleBlock (self : Item α) : Element α :=
  match self.description with
  | some description =>
      Element.column 2 (some Length.Fill)
        [ Element.text { text self.title with wrapping := some Wrapping.Word },
          Element.text { text description with wrapping := some Wrapping.Word, size := some 10 } ]
  | none => Element.text { text self.title with width := some Length.Fill }

/-- Recognizer for spacer nodes. -/
def isSpacer : Element α → Bool
  | Element.space _ => true
  | _ => false

/-- Decomposition of `Item::control_`: optional icon, one title block, the
control, in this order and nothing else. -/
theorem Item.control_parts (self : Item α) (widget : Element α) :
    self.control_ widget = self.iconList ++ [self.titleBlock] ++ [widget] := by
  rcases self with ⟨title, description, icon⟩
  cases icon <;> cases description <;>
    simp [Item.control_, Item.iconList, Item.titleBlock]

/-- A concrete theme used by closed statements below. -/
def sampleTheme : Theme :=
  { cosmicTheme := { spacing :=
      { space_none := 0, space_xxxs := 4, space_xxs := 8, space_xs := 12,
        space_s := 16, space_m := 24, space_l := 32 } } }

/-- A concrete `Item` with a description and no icon. -/
def sampleItem : Item Unit :=
  { title := "Title", description := some "Description", icon := none }

/-- A concrete control widget. -/
def sampleControl : Element Unit :=
  Element.text (text "control")

/-- An unpoisoned concrete theme lock. -/
def sampleLock : ThemeLock :=
  { poisoned := false, value := sampleTheme }

/-- C1: for every title and control widget, `item(title, widget)` produces a
row whose children are exactly, in order, a word-wrapped text node for the
title, one horizontal spacer of `Fill` width, and the control widget. -/
theorem item_children (theme : Theme) (title : String) (widget : Element α) :
    (item theme title widget).children =
      [ Element.text { content := title, wrapping := some Wrapping.Word,
                       width := none, size := none },
        Element.space { width := Length.Fill },
        widget ] := rfl

/-- C2: every terminal method of the `Item` builder (`control`,
`flex_control`, `toggler`) produces a children list that is, in order, the
icon exactly when one was set, then exactly one title-or-title+description
block, then exactly one trailing control widget, and nothing else. -/
theorem terminal_children (theme : Theme) (self : Item α) (w : Element α)
    (b : Bool) (m : Bool → α) :
    (self.control theme w).children = self.iconList ++ [self.titleBlock] ++ [w]
    ∧ (self.flex_control theme w).children = self.iconList ++ [self.titleBlock] ++ [w]
    ∧ (self.toggler theme b m).children =
        self.iconList ++ [self.titleBlock]
          ++ [Element.toggler { is_checked := b, on_toggle := some m }] := by
  refine ⟨?_, ?_, ?_⟩ <;>
    simp [Item.control, Item.flex_control, Item.toggler, item_row, flex_item_row,
          row.with_children, flex_row, Item.control_parts, widget.toggler]

/-- C3: in the assembly done by `Item::control_`, a present description
yields a column stacking the word-wrapped title and the word-wrapped,
size-10 description with spacing 2; an absent description yields the title
text alone with `Fill` width. -/
theorem description_assembly (t d : String) (icon : Option (Element α)) (w : Element α) :
    (Item.mk t (some d) icon).control_ w =
      (Item.mk t (some d) icon).iconList
        ++ [ Element.column 2 (some Length.Fill)
              [ Element.text { content := t, wrapping := some Wrapping.Word,
                               width := none, size := none },
                Element.text { content := d, wrapping := some Wrapping.Word,
                               width := none, size := some 10 } ] ]
        ++ [w]
    ∧ (Item.mk t none icon).control_ w =
      (Item.mk t none icon).iconList
        ++ [ Element.text { content := t, wrapping := none,
                            width := some Length.Fill, size := none } ]
        ++ [w] := by
  refine ⟨?_, ?_⟩ <;> rw [Item.control_parts] <;> rfl

/-- C4 counterexample: for the concrete item with a description, the node in
the control position of the produced row (its last child) is the control
widget itself, not the title/description stack; the stack is the first
child instead. -/
theorem stack_not_in_control_place :
    (sampleItem.control sampleTheme sampleControl).children
      = [sampleItem.titleBlock, sampleControl]
    ∧ (sampleItem.control sampleTheme sampleControl).children.getLast?
        ≠ some sampleItem.titleBlock := by
  constructor
  · simp [Item.control, item_row, row.with_children, Item.control_parts,
          sampleItem, Item.iconList]
  · simp [Item.control, item_row, row.with_children, Item.control_parts,
          sampleItem, Item.iconList, Item.titleBlock, sampleControl, text]

/-- C4 (amended): for every `Item` with a description, the row produced by a
terminal method contains the title/description stack as a single combined
column node in the title position, immediately preceding the control. -/
theorem stack_in_title_place (theme : Theme) (t d : String)
    (icon : Option (Element α)) (w : Element α) :
    ((Item.mk t (some d) icon).control theme w).children
      = (Item.mk t (some d) icon).iconList
          ++ [(Item.mk t (some d) icon).titleBlock, w]
    ∧ (Item.mk t (some d) icon).titleBlock
      = Element.column 2 (some Length.Fill)
          [ Element.text { content := t, wrapping := some Wrapping.Word,
                           width := none, size := none },
            Element.text { content := d, wrapping := some Wrapping.Word,
                           width := none, size := some 10 } ] := by
  constructor
  · simp [Item.control, item_row, row.with_children, Item.control_parts]
  · rfl

/-- C5: `flex_item_row` always sets a minimum item width of 200, space
between content justification, centered item justification, `Fill` width,
`space_xs` spacing and `[0, space_s]` padding regardless of the children;
and `flex_item` gives the title `Fill` width and wraps the control in a
generic container. -/
theorem flex_row_config (theme : Theme) (children : List (Element α))
    (title : String) (w : Element α) :
    flex_item_row theme children =
      { children := children,
        padding := Padding.fromPair 0 theme.cosmic.spacing.space_s,
        spacing := theme.cosmic.spacing.space_xs,
        min_item_width := 200,
        justify_items := Alignment.Center,
        justify_content := AlignContent.SpaceBetween,
        width := Length.Fill }
    ∧ (flex_item theme title w).children =
        [ Element.text { content := title, wrapping := some Wrapping.Word,
                         width := some Length.Fill, size := none },
          Element.container w ] :=
  ⟨rfl, rfl⟩

/-- C6: `item_row` uses `space_xs` as the gap between children, padding of
`space_s` horizontally and 0 vertically, and centers its children
vertically. -/
theorem item_row_config (theme : Theme) (children : List (Element α)) :
    item_row theme children =
      { children := children,
        spacing := theme.cosmic.spacing.space_xs,
        align_y := Alignment.Center,
        padding := Padding.fromPair 0 theme.cosmic.spacing.space_s } := rfl

/-- Spec reading of `Item::toggler`: `control` applied to a boolean toggle
switch widget initialized with `is_checked` and bound to `message` as its
state-change callback. -/
def togglerRowSpec (self : Item α) (theme : Theme) (is_checked : Bool)
    (message : Bool → α) : Row α :=
  self.control theme
    (Element.toggler { is_checked := is_checked, on_toggle := some message })

/-- C7: `toggler(is_checked, message)` produces exactly the row that
`control` produces on a toggle switch initialized with `is_checked` and
bound to `message`. -/
theorem toggler_refines (theme : Theme) (self : Item α) (b : Bool)
    (m : Bool → α) :
    self.toggler theme b m = togglerRowSpec self theme b m := rfl

/-- C8: when the global theme lock is not poisoned, every public builder
entry point of the module succeeds on all well-typed inputs: no path
aborts. -/
theorem builders_total (st : ThemeLock) (h : st.poisoned = false)
    (children : List (Element α)) (title : String) (w : Element α)
    (self : Item α) (b : Bool) (m : Bool → α) :
    (item_rowState st children).1.isSome = true
    ∧ (itemState st title w).1.isSome = true
    ∧ (flex_item_rowState st children).1.isSome = true
    ∧ (flex_itemState st title w).1.isSome = true
    ∧ (controlState st self w).1.isSome = true
    ∧ (flex_controlState st self w).1.isSome = true
    ∧ (togglerState st self b m).1.isSome = true
    ∧ builder title = (Item.mk title none none : Item α) := by
  have hl : st.lockUnwrap = some st.value := by
    simp [ThemeLock.lockUnwrap, h]
  refine ⟨?_, ?_, ?_, ?_, ?_, ?_, ?_, rfl⟩ <;>
    simp [item_rowState, itemState, flex_item_rowState, flex_itemState,
          controlState, flex_controlState, togglerState, withTheme, hl]

/-- Witness for C8 at the concrete unpoisoned lock and concrete inputs. -/
theorem builders_total_witness :
    (item_rowState sampleLock ([] : List (Element Unit))).1.isSome = true
    ∧ (itemState sampleLock "t" sampleControl).1.isSome = true
    ∧ (flex_item_rowState sampleLock ([] : List (Element Unit))).1.isSome = true
    ∧ (flex_itemState sampleLock "t" sampleControl).1.isSome = true
    ∧ (controlState sampleLock sampleItem sampleControl).1.isSome = true
    ∧ (flex_controlState sampleLock sampleItem sampleControl).1.isSome = true
    ∧ (togglerState sampleLock sampleItem true (fun _ => ())).1.isSome = true
    ∧ builder "t" = (Item.mk "t" none none : Item Unit) :=
  builders_total sampleLock rfl [] "t" sampleControl sampleItem true (fun _ => ())

/-- C9: `item_row` and `flex_item_row` only read the theme: the lock state
after either call equals the lock state before it. -/
theorem theme_unchanged (st : ThemeLock) (children : List (Element α)) :
    (item_rowState st children).2 = st
    ∧ (flex_item_rowState st children).2 = st := by
  cases hlk : st.lockUnwrap <;>
    simp [item_rowState, flex_item_rowState, withTheme, hlk]

/-- C10: `builder(title).control(widget)` with no description and no icon
produces exactly two children, a `Fill` width title text node with no
wrapping applied followed by the control; no spacer is inserted before the
control, and the children differ from those of `item(title, widget)`. -/
theorem builder_control_children (theme : Theme) (title : String) (w : Element α) :
    ((builder title).control theme w).children =
      [ Element.text { content := title, wrapping := none,
                       width := some Length.Fill, size := none },
        w ]
    ∧ (∀ c ∈ (((builder title).control theme w).children).dropLast,
        isSpacer c = false)
    ∧ ((builder title).control theme w).children ≠ (item theme title w).children := by
  refine ⟨rfl, ?_, ?_⟩
  · intro c hc
    simp [Item.control, builder, item_row, row.with_children, Item.control_,
          text] at hc
    simp [hc, isSpacer]
  · intro hEq
    have := congrArg List.length hEq
    simp [Item.control, builder, item, item_row, row.with_children,
          Item.control_, text] at this

end Cosmic
